import Mathlib

/-!
Shallow embedding of `homeassistant/components/proxmoxve/const.py`.

Numbers are modelled as rationals (`ℚ`).  Python's `round(x, n)` rounds to
`n` decimal places with ties going to the even choice (banker's rounding);
`pyRound` below reproduces that on `ℚ`.  Python's division raises
`ZeroDivisionError` on a zero denominator, so data-dependent division is
modelled by `pydiv : ℚ → ℚ → Option ℚ` returning `none` exactly there.
-/

namespace ProxmoxVE

/-- Round a rational to the nearest integer, ties to even (Python's `round`). -/
def roundHalfEven (q : ℚ) : ℤ :=
  let f : ℤ := ⌊q⌋
  if q - f < 1/2 then f
  else if 1/2 < q - f then f + 1
  else if Even f then f else f + 1

/-- Python's `round(x, n)`: round to `n` decimal places, ties to even. -/
def pyRound (x : ℚ) (n : ℕ) : ℚ :=
  (roundHalfEven (x * 10 ^ n) : ℚ) / 10 ^ n

/-- Python's `/` on numbers: `none` models the `ZeroDivisionError` raised when
the denominator is zero. -/
def pydiv (a b : ℚ) : Option ℚ :=
  if b = 0 then none else some (a / b)

/-- Result of a sensor's `conversion` function: the ones in the source return
either a number or a `timedelta` (for `uptime`). -/
inductive DisplayValue where
  | num (q : ℚ)
  | duration (seconds : ℚ)
deriving DecidableEq

/-- Whether a `DisplayValue` is numeric. -/
def DisplayValue.isNum : DisplayValue → Bool
  | .num _ => true
  | .duration _ => false

/-- Modelled from the spec: `ProxmoxBinarySensorDescription` lives in the
integration's `model` module, which is not among the given sources; per the
spec's data model it is a descriptor with a key and a display icon. -/
structure ProxmoxBinarySensorDescription where
  key : String
  icon : String
deriving DecidableEq

/-- Modelled from the spec: the state classification tag attached to some
metric descriptors (the host platform's `SensorStateClass`); only the
`MEASUREMENT` variant is used in the source. -/
inductive SensorStateClass where
  | measurement
deriving DecidableEq

/-- Modelled from the spec: `ProxmoxSensorDescription` lives in the
integration's `model` module, which is not among the given sources.  Per the
spec's data model a metric descriptor has a key, a display icon, optional
units (metric/imperial variants and a native unit), a pure conversion
function (raw API value → display value), an optional derivation
(`calculation`) from named raw fields, an optional state classification tag
and an enablement default flag.  Fields not passed at a construction site in
`const.py` keep the defaults below (`none`, and enabled by default). -/
structure ProxmoxSensorDescription where
  key : String
  icon : String
  unit_metric : Option String := none
  unit_imperial : Option String := none
  native_unit_of_measurement : Option String := none
  conversion : Option (ℚ → DisplayValue) := none
  calculation : Option ((String → ℚ) → Option ℚ) := none
  state_class : Option SensorStateClass := none
  entity_registry_enabled_default : Bool := true

/-- Modelled from the spec: `ProxmoxSwitchDescription` (the toggle
descriptor) pairs a start command with a stop command, with a key and an
icon. -/
structure ProxmoxSwitchDescription where
  key : String
  icon : String
  start_command : String
  stop_command : String
deriving DecidableEq

/-- Modelled from the spec: `ProxmoxButtonDescription` (the command
descriptor) has a key naming a lifecycle action, a display icon, and an
optional enablement default (enabled when not overridden). -/
structure ProxmoxButtonDescription where
  key : String
  icon : String
  entity_registry_enabled_default : Bool := true
deriving DecidableEq

/-- Modelled from the spec: `homeassistant.const.ATTR_TIME` (host framework
constant, not in the given sources). -/
def ATTR_TIME : String := "time"

/-- Modelled from the spec: `homeassistant.const.DATA_GIGABYTES`. -/
def DATA_GIGABYTES : String := "GB"

/-- Modelled from the spec: `homeassistant.const.DATA_RATE_MEGABYTES_PER_SECOND`. -/
def DATA_RATE_MEGABYTES_PER_SECOND : String := "MB/s"

/-- Modelled from the spec: `homeassistant.const.PERCENTAGE`. -/
def PERCENTAGE : String := "%"

def COMMAND_REBOOT : String := "reboot"

def COMMAND_RESUME : String := "resume"

def COMMAND_SHUTDOWN : String := "shutdown"

def COMMAND_START : String := "start"

def COMMAND_STOP : String := "stop"

def COMMAND_SUSPEND : String := "suspend"

def VM_COMMANDS : List String :=
  [COMMAND_REBOOT, COMMAND_RESUME, COMMAND_SHUTDOWN, COMMAND_START,
   COMMAND_STOP, COMMAND_SUSPEND]

def binary_status : ProxmoxBinarySensorDescription :=
  { key := "status", icon := "mdi:server" }

def PROXMOX_BINARYSENSOR_TYPES : List ProxmoxBinarySensorDescription :=
  [binary_status]

def sensor_uptime : ProxmoxSensorDescription :=
  { key := "uptime", icon := "mdi:database-clock-outline",
    unit_metric := some ATTR_TIME, unit_imperial := some ATTR_TIME,
    conversion := some (fun x => DisplayValue.duration x),
    state_class := some SensorStateClass.measurement }

def sensor_disk : ProxmoxSensorDescription :=
  { key := "disk", icon := "mdi:harddisk",
    native_unit_of_measurement := some DATA_GIGABYTES,
    conversion := some (fun x => DisplayValue.num (pyRound (x / 1073741824) 2)),
    state_class := some SensorStateClass.measurement }

def sensor_maxdisk : ProxmoxSensorDescription :=
  { key := "maxdisk", icon := "mdi:harddisk-plus",
    native_unit_of_measurement := some DATA_GIGABYTES,
    conversion := some (fun x => DisplayValue.num (pyRound (x / 1073741824) 2)),
    state_class := some SensorStateClass.measurement,
    entity_registry_enabled_default := false }

def sensor_diskread : ProxmoxSensorDescription :=
  { key := "diskread", icon := "mdi:harddisk",
    native_unit_of_measurement := some DATA_RATE_MEGABYTES_PER_SECOND,
    conversion := some (fun x => DisplayValue.num (pyRound (x / 1048576) 2)),
    state_class := some SensorStateClass.measurement,
    entity_registry_enabled_default := false }

def sensor_diskwrite : ProxmoxSensorDescription :=
  { key := "diskwrite", icon := "mdi:harddisk",
    native_unit_of_measurement := some DATA_RATE_MEGABYTES_PER_SECOND,
    conversion := some (fun x => DisplayValue.num (pyRound (x / 1048576) 2)),
    state_class := some SensorStateClass.measurement,
    entity_registry_enabled_default := false }

def sensor_cpus : ProxmoxSensorDescription :=
  { key := "cpus", icon := "mdi:cpu-64-bit",
    state_class := some SensorStateClass.measurement,
    entity_registry_enabled_default := false }

def sensor_cpu : ProxmoxSensorDescription :=
  { key := "cpu", icon := "mdi:cpu-64-bit",
    unit_metric := some PERCENTAGE, unit_imperial := some PERCENTAGE,
    native_unit_of_measurement := some PERCENTAGE,
    conversion := some (fun x => DisplayValue.num (pyRound (x * 100) 1)),
    state_class := some SensorStateClass.measurement }

def sensor_mem : ProxmoxSensorDescription :=
  { key := "mem", icon := "mdi:memory",
    native_unit_of_measurement := some DATA_GIGABYTES,
    conversion := some (fun x => DisplayValue.num (pyRound (x / 1073741824) 2)),
    state_class := some SensorStateClass.measurement }

def sensor_maxmem : ProxmoxSensorDescription :=
  { key := "maxmem", icon := "mdi:memory",
    native_unit_of_measurement := some DATA_GIGABYTES,
    conversion := some (fun x => DisplayValue.num (pyRound (x / 1073741824) 2)),
    state_class := some SensorStateClass.measurement,
    entity_registry_enabled_default := false }

def sensor_netin : ProxmoxSensorDescription :=
  { key := "netin", icon := "mdi:mdi:download-network-outline",
    native_unit_of_measurement := some DATA_RATE_MEGABYTES_PER_SECOND,
    conversion := some (fun x => DisplayValue.num (pyRound (x / 1048576) 2)),
    state_class := some SensorStateClass.measurement,
    entity_registry_enabled_default := false }

def sensor_netout : ProxmoxSensorDescription :=
  { key := "netout", icon := "mdi:upload-network-outline",
    native_unit_of_measurement := some DATA_RATE_MEGABYTES_PER_SECOND,
    conversion := some (fun x => DisplayValue.num (pyRound (x / 1048576) 2)),
    state_class := some SensorStateClass.measurement,
    entity_registry_enabled_default := false }

def PROXMOX_SENSOR_TYPES : List ProxmoxSensorDescription :=
  [sensor_uptime, sensor_disk, sensor_maxdisk, sensor_diskread,
   sensor_diskwrite, sensor_cpus, sensor_cpu, sensor_mem, sensor_maxmem,
   sensor_netin, sensor_netout]

/-- The derivation `lambda x: 1 - x["disk"] / x["maxdisk"]`; the unguarded
division is `pydiv`, so the result is `none` exactly when the Python lambda
raises `ZeroDivisionError`. -/
def disk_pct_free_calc (x : String → ℚ) : Option ℚ :=
  (pydiv (x "disk") (x "maxdisk")).map (fun q => 1 - q)

/-- The derivation `lambda x: 1 - x["mem"] / x["maxmem"]`. -/
def mem_pct_free_calc (x : String → ℚ) : Option ℚ :=
  (pydiv (x "mem") (x "maxmem")).map (fun q => 1 - q)

def calc_disk_pct_free : ProxmoxSensorDescription :=
  { key := "disk_pct_free", icon := "mdi:harddisk",
    unit_metric := some PERCENTAGE, unit_imperial := some PERCENTAGE,
    native_unit_of_measurement := some PERCENTAGE,
    conversion := some (fun x => DisplayValue.num (pyRound (x * 100) 1)),
    calculation := some disk_pct_free_calc,
    state_class := some SensorStateClass.measurement }

def calc_mem_pct_free : ProxmoxSensorDescription :=
  { key := "mem_pct_free", icon := "mdi:memory",
    unit_metric := some PERCENTAGE, unit_imperial := some PERCENTAGE,
    native_unit_of_measurement := some PERCENTAGE,
    conversion := some (fun x => DisplayValue.num (pyRound (x * 100) 1)),
    calculation := some mem_pct_free_calc,
    state_class := some SensorStateClass.measurement }

def PROXMOX_CALCULATED_SENSOR_TYPES : List ProxmoxSensorDescription :=
  [calc_disk_pct_free, calc_mem_pct_free]

def switch_Switch : ProxmoxSwitchDescription :=
  { key := "Switch", icon := "mdi:server",
    start_command := COMMAND_START, stop_command := COMMAND_SHUTDOWN }

def switch_Switch_Stop : ProxmoxSwitchDescription :=
  { key := "Switch_Stop", icon := "mdi:server",
    start_command := COMMAND_START, stop_command := COMMAND_STOP }

def PROXMOX_SWITCH_TYPES : List ProxmoxSwitchDescription :=
  [switch_Switch, switch_Switch_Stop]

def button_reboot : ProxmoxButtonDescription :=
  { key := COMMAND_REBOOT, icon := "mdi:restart" }

def button_start : ProxmoxButtonDescription :=
  { key := COMMAND_START, icon := "mdi:server" }

def button_shutdown : ProxmoxButtonDescription :=
  { key := COMMAND_SHUTDOWN, icon := "mdi:server-off" }

def button_stop : ProxmoxButtonDescription :=
  { key := COMMAND_STOP, icon := "mdi:stop" }

def button_resume : ProxmoxButtonDescription :=
  { key := COMMAND_RESUME, icon := "mdi:play",
    entity_registry_enabled_default := false }

def button_suspend : ProxmoxButtonDescription :=
  { key := COMMAND_SUSPEND, icon := "mdi:pause",
    entity_registry_enabled_default := false }

def PROXMOX_BUTTON_TYPES : List ProxmoxButtonDescription :=
  [button_reboot, button_start, button_shutdown, button_stop,
   button_resume, button_suspend]

def PARSE_DATA : List String :=
  PROXMOX_SENSOR_TYPES.map (fun s => s.key)
    ++ PROXMOX_BINARYSENSOR_TYPES.map (fun s => s.key)
    ++ ["name"]

def PROXMOX_SENSOR_TYPES_ALL : List ProxmoxSensorDescription :=
  PROXMOX_SENSOR_TYPES ++ PROXMOX_CALCULATED_SENSOR_TYPES

/-- Modelled from the spec: for a calculated sensor descriptor the host
computes the derivation from the raw fields first and applies the standard
conversion afterwards ("a derivation function that computes a raw value from
two other named raw fields ... before the standard conversion is applied"). -/
def calculatedValue (d : ProxmoxSensorDescription) (data : String → ℚ) :
    Option DisplayValue :=
  match d.calculation, d.conversion with
  | some c, some conv => (c data).map conv
  | _, _ => none

/-- C1: for raw values `(used, mx)` with `mx > 0`, applying the derivation of
a calculated sensor descriptor (`disk_pct_free` or `mem_pct_free`) and then
its conversion yields `round((1 - used/mx) * 100, 1)`: the derivation
`1 - used/mx` comes first, the standard percentage conversion afterwards. -/
theorem calculated_free_pct (used mx : ℚ) (hmx : 0 < mx) (data : String → ℚ) :
    (data "disk" = used → data "maxdisk" = mx →
      calculatedValue calc_disk_pct_free data =
        some (DisplayValue.num (pyRound ((1 - used / mx) * 100) 1))) ∧
    (data "mem" = used → data "maxmem" = mx →
      calculatedValue calc_mem_pct_free data =
        some (DisplayValue.num (pyRound ((1 - used / mx) * 100) 1))) := by
  constructor <;> intro h1 h2 <;>
    simp [calculatedValue, calc_disk_pct_free, calc_mem_pct_free,
      disk_pct_free_calc, mem_pct_free_calc, pydiv, h1, h2, hmx.ne']

/-- C1 witness: with both raw fields equal to 2 the composition is defined
and produces the percentage of `1 - 2/2`. -/
theorem calculated_free_pct_witness :
    calculatedValue calc_disk_pct_free (fun _ => 2) =
      some (DisplayValue.num (pyRound ((1 - 2 / 2) * 100) 1)) ∧
    calculatedValue calc_mem_pct_free (fun _ => 2) =
      some (DisplayValue.num (pyRound ((1 - 2 / 2) * 100) 1)) :=
  ⟨(calculated_free_pct 2 2 (by norm_num) (fun _ => 2)).1 rfl rfl,
   (calculated_free_pct 2 2 (by norm_num) (fun _ => 2)).2 rfl rfl⟩

/-- C2: the derivations of the calculated sensor descriptors divide without
a guard: when the denominator field ("maxdisk" resp. "maxmem") is zero the
division error is raised (modelled as `none`), and for a nonzero denominator
no error is raised and the expected quotient is produced. -/
theorem calculation_unguarded_division (data : String → ℚ) :
    calc_disk_pct_free.calculation = some disk_pct_free_calc ∧
    calc_mem_pct_free.calculation = some mem_pct_free_calc ∧
    (data "maxdisk" = 0 → disk_pct_free_calc data = none) ∧
    (data "maxdisk" ≠ 0 →
      disk_pct_free_calc data = some (1 - data "disk" / data "maxdisk")) ∧
    (data "maxmem" = 0 → mem_pct_free_calc data = none) ∧
    (data "maxmem" ≠ 0 →
      mem_pct_free_calc data = some (1 - data "mem" / data "maxmem")) := by
  refine ⟨rfl, rfl, ?_, ?_, ?_, ?_⟩ <;> intro h <;>
    simp [disk_pct_free_calc, mem_pct_free_calc, pydiv, h]

/-- C2 witness: with all raw fields zero the disk derivation errors, and with
all raw fields one the memory derivation succeeds. -/
theorem calculation_unguarded_division_witness :
    disk_pct_free_calc (fun _ => 0) = none ∧
    mem_pct_free_calc (fun _ => 1) = some (1 - 1 / 1) :=
  ⟨(calculation_unguarded_division (fun _ => 0)).2.2.1 rfl,
   (calculation_unguarded_division (fun _ => 1)).2.2.2.2.2 (by norm_num)⟩

/-- C3: for every byte value `b ≥ 0`, the conversion of each sensor
descriptor with key "disk", "maxdisk", "mem" or "maxmem" is present and
returns `round(b / 1073741824, 2)`. -/
theorem gb_conversion (b : ℚ) (hb : 0 ≤ b)
    (d : ProxmoxSensorDescription) (hd : d ∈ PROXMOX_SENSOR_TYPES)
    (hkey : d.key = "disk" ∨ d.key = "maxdisk" ∨ d.key = "mem" ∨
      d.key = "maxmem") :
    d.conversion.map (fun f => f b) =
      some (DisplayValue.num (pyRound (b / 1073741824) 2)) := by
  fin_cases hd <;> first
    | rfl
    | exact absurd hkey (by decide)

/-- C3 witness: the "disk" descriptor is in the table and converts 0 bytes. -/
theorem gb_conversion_witness :
    sensor_disk.conversion.map (fun f => f 0) =
      some (DisplayValue.num (pyRound (0 / 1073741824) 2)) :=
  gb_conversion 0 le_rfl sensor_disk (by simp [PROXMOX_SENSOR_TYPES])
    (Or.inl rfl)

/-- C4: for every byte value `b ≥ 0`, the conversion of each sensor
descriptor with key "diskread", "diskwrite", "netin" or "netout" is present
and returns `round(b / 1048576, 2)`. -/
theorem mbps_conversion (b : ℚ) (hb : 0 ≤ b)
    (d : ProxmoxSensorDescription) (hd : d ∈ PROXMOX_SENSOR_TYPES)
    (hkey : d.key = "diskread" ∨ d.key = "diskwrite" ∨ d.key = "netin" ∨
      d.key = "netout") :
    d.conversion.map (fun f => f b) =
      some (DisplayValue.num (pyRound (b / 1048576) 2)) := by
  fin_cases hd <;> first
    | rfl
    | exact absurd hkey (by decide)

/-- C4 witness: the "netin" descriptor is in the table and converts 0
bytes per second. -/
theorem mbps_conversion_witness :
    sensor_netin.conversion.map (fun f => f 0) =
      some (DisplayValue.num (pyRound (0 / 1048576) 2)) :=
  mbps_conversion 0 le_rfl sensor_netin (by simp [PROXMOX_SENSOR_TYPES])
    (Or.inr (Or.inr (Or.inl rfl)))

/-- C5: for every fraction `f` in `[0, 1]`, the conversion of the sensor
descriptor with key "cpu" and of both calculated sensor descriptors
("disk_pct_free", "mem_pct_free") is present and returns
`round(f * 100, 1)`. -/
theorem pct_conversion (f : ℚ) (h0 : 0 ≤ f) (h1 : f ≤ 1)
    (d : ProxmoxSensorDescription) (hd : d ∈ PROXMOX_SENSOR_TYPES_ALL)
    (hkey : d.key = "cpu" ∨ d.key = "disk_pct_free" ∨
      d.key = "mem_pct_free") :
    d.conversion.map (fun g => g f) =
      some (DisplayValue.num (pyRound (f * 100) 1)) := by
  fin_cases hd <;> first
    | rfl
    | exact absurd hkey (by decide)

/-- C5 witness: the "cpu" descriptor is in the concatenated table and
converts the fraction 1. -/
theorem pct_conversion_witness :
    sensor_cpu.conversion.map (fun g => g 1) =
      some (DisplayValue.num (pyRound (1 * 100) 1)) :=
  pct_conversion 1 (by norm_num) le_rfl sensor_cpu
    (by simp [PROXMOX_SENSOR_TYPES_ALL, PROXMOX_SENSOR_TYPES]) (Or.inl rfl)

/-- C8 counterexample: it is not the case that every descriptor in
`PROXMOX_SENSOR_TYPES` carries a conversion function that returns a number
for numeric input: the "cpus" descriptor carries no conversion at all. -/
theorem sensor_conversion_claim_false :
    ¬ (∀ d ∈ PROXMOX_SENSOR_TYPES, ∃ g, d.conversion = some g ∧
        ∀ q : ℚ, (g q).isNum = true) := by
  intro h
  obtain ⟨g, hg, -⟩ := h sensor_cpus (by simp [PROXMOX_SENSOR_TYPES])
  simp [sensor_cpus] at hg

/-- C8 amended: every descriptor in `PROXMOX_SENSOR_TYPES` except the one
with key "cpus" carries a conversion function, and for every such descriptor
except "uptime" (whose conversion returns a timedelta, not a number) the
conversion returns a number on numeric input. -/
theorem sensor_conversion_amended (d : ProxmoxSensorDescription)
    (hd : d ∈ PROXMOX_SENSOR_TYPES) (q : ℚ) (hkey : d.key ≠ "cpus") :
    d.conversion.isSome = true ∧
    (d.key ≠ "uptime" →
      d.conversion.map (fun g => (g q).isNum) = some true) := by
  fin_cases hd <;> first
    | exact absurd rfl hkey
    | exact ⟨rfl, fun hk => absurd rfl hk⟩
    | exact ⟨rfl, fun hk => rfl⟩

/-- C8 witness: the "disk" descriptor has a conversion and it returns a
number on input 5. -/
theorem sensor_conversion_amended_witness :
    sensor_disk.conversion.map (fun g => (g 5).isNum) = some true :=
  (sensor_conversion_amended sensor_disk (by simp [PROXMOX_SENSOR_TYPES]) 5
    (by decide)).2 (by decide)

/-- C6: within each declared descriptor table (binary sensors, sensors,
calculated sensors, switches, buttons, and the concatenation
`PROXMOX_SENSOR_TYPES_ALL`), no two descriptors share the same key: the list
of keys of each table has no duplicate, so the keys at any two distinct
indices differ. -/
theorem descriptor_keys_unique :
    (PROXMOX_BINARYSENSOR_TYPES.map (fun s => s.key)).Nodup ∧
    (PROXMOX_SENSOR_TYPES.map (fun s => s.key)).Nodup ∧
    (PROXMOX_CALCULATED_SENSOR_TYPES.map (fun s => s.key)).Nodup ∧
    (PROXMOX_SWITCH_TYPES.map (fun s => s.key)).Nodup ∧
    (PROXMOX_BUTTON_TYPES.map (fun s => s.key)).Nodup ∧
    (PROXMOX_SENSOR_TYPES_ALL.map (fun s => s.key)).Nodup := by
  refine ⟨?_, ?_, ?_, ?_, ?_, ?_⟩ <;> decide

/-- C7: both the start command and the stop command of every switch
descriptor in `PROXMOX_SWITCH_TYPES` belong to the fixed command vocabulary
`VM_COMMANDS`. -/
theorem switch_commands_in_vocabulary (d : ProxmoxSwitchDescription)
    (hd : d ∈ PROXMOX_SWITCH_TYPES) :
    d.start_command ∈ VM_COMMANDS ∧ d.stop_command ∈ VM_COMMANDS := by
  fin_cases hd <;> decide

/-- C7 witness: the first switch descriptor is in the table and its commands
are in the vocabulary. -/
theorem switch_commands_in_vocabulary_witness :
    switch_Switch.start_command ∈ VM_COMMANDS ∧
    switch_Switch.stop_command ∈ VM_COMMANDS :=
  switch_commands_in_vocabulary switch_Switch (by decide)

/-- C9: `PARSE_DATA` is exactly the keys of `PROXMOX_SENSOR_TYPES` followed
by the keys of `PROXMOX_BINARYSENSOR_TYPES` followed by the single extra
entry "name", 13 entries in total, and neither calculated sensor key
("disk_pct_free", "mem_pct_free") occurs in it. -/
theorem parse_data_exact :
    PARSE_DATA =
      PROXMOX_SENSOR_TYPES.map (fun s => s.key)
        ++ PROXMOX_BINARYSENSOR_TYPES.map (fun s => s.key) ++ ["name"] ∧
    PARSE_DATA =
      ["uptime", "disk", "maxdisk", "diskread", "diskwrite", "cpus", "cpu",
       "mem", "maxmem", "netin", "netout", "status", "name"] ∧
    PARSE_DATA.length = 13 ∧
    "disk_pct_free" ∉ PARSE_DATA ∧ "mem_pct_free" ∉ PARSE_DATA := by
  refine ⟨by simp [PARSE_DATA], ?_, ?_, ?_, ?_⟩ <;> decide

/-- C10: a button descriptor in `PROXMOX_BUTTON_TYPES` has its enablement
default flag `False` exactly when its key is "resume" or "suspend"; the
reboot, start, shutdown and stop buttons keep the enabled default. -/
theorem button_enabled_default_iff (d : ProxmoxButtonDescription)
    (hd : d ∈ PROXMOX_BUTTON_TYPES) :
    d.entity_registry_enabled_default = false ↔
      (d.key = "resume" ∨ d.key = "suspend") := by
  fin_cases hd <;> decide

/-- C10 witness: the resume button is in the table, its key is "resume" and
its enablement default flag is `False`. -/
theorem button_enabled_default_iff_witness :
    button_resume.entity_registry_enabled_default = false :=
  (button_enabled_default_iff button_resume (by decide)).mpr (Or.inl (by decide))

end ProxmoxVE
